import Mathlib

/-!
Verification of the Docker service-orchestration scripts of the
simplified-payment-api repository, against its natural-language specification.

The Python scripts are shallowly embedded: every external effect (a CLI call,
a readiness probe, a prerequisite check) is abstracted as an outcome supplied
by an environment record, and the control flow of each Python function is
translated into a pure Lean function over those outcomes.  Console output,
progress bars and sleeps are modelled only where a claim mentions them
(sleep counts), otherwise dropped.
-/

/-! ## Orchestrator data model (src/infra/docker/orchestrator.py)

`ServiceState` mirrors the five-value enum; `ServiceName` mirrors the fixed
key set of the `self.services` dict (six base services plus the four
monitoring services added when `include_monitoring` is set).
-/

/-- The five-value state enum of orchestrator.py. -/
inductive ServiceState
  | pending
  | starting
  | verifying
  | ready
  | failed
deriving DecidableEq

/-- The fixed service keys of `ServiceOrchestrator.services`. -/
inductive ServiceName
  | redis
  | mysql
  | mongodb
  | laravel
  | queue
  | nginx
  | elasticsearch
  | logstash
  | kibana
  | prometheus
deriving DecidableEq

/-- Outcome of one Python call that returns a bool or raises an exception. -/
inductive CallResult
  | ok (value : Bool) : CallResult
  | exc : CallResult
deriving DecidableEq

/-- External behaviour of one service adapter during the startup loop:
the outcome of `service.start(wait=False)` and of `service.verify()`. -/
structure ServiceBehavior where
  start : CallResult
  verify : CallResult

/-- External outcomes consumed by one `start_all_services` run. -/
structure OrchEnv where
  /-- outcome of `PrerequisiteChecker.check_all` -/
  prereqOk : Bool
  /-- outcome of `network_manager.create_all_networks()` -/
  networksOk : Bool
  /-- outcome of `network_manager.update_compose_files()` (warning only) -/
  composeFilesOk : Bool
  /-- per-service outcome of the start/verify calls in the startup loop -/
  behavior : ServiceName → ServiceBehavior
  /-- per-service outcome of `service.verify(max_attempts=10)` in
  `_verify_all_services` (the final sweep) -/
  finalVerify : ServiceName → Bool

/-- The per-run mutable state of the orchestrator: `self.service_states`,
plus instrumentation recording every `update_service_state` call and
which services had `start`/`verify` invoked by the startup loop. -/
structure OrchState where
  states : ServiceName → ServiceState
  updates : ServiceName → List ServiceState
  startCalled : ServiceName → Bool
  verifyCalled : ServiceName → Bool

/-- `self.service_states = {name: PENDING for name in services}`. -/
def initOrchState : OrchState where
  states := fun _ => ServiceState.pending
  updates := fun _ => []
  startCalled := fun _ => false
  verifyCalled := fun _ => false

/-- `ServiceOrchestrator.update_service_state`: assigns the new state and
(instrumentation) appends it to that service's update log. -/
def update_service_state (st : OrchState) (n : ServiceName) (s : ServiceState) : OrchState :=
  { st with
    states := fun m => if m = n then s else st.states m,
    updates := fun m => if m = n then st.updates m ++ [s] else st.updates m }

/-- Instrumentation: records that `service.start` was invoked for `n`. -/
def mark_start_called (st : OrchState) (n : ServiceName) : OrchState :=
  { st with startCalled := fun m => if m = n then true else st.startCalled m }

/-- Instrumentation: records that `service.verify` was invoked for `n`. -/
def mark_verify_called (st : OrchState) (n : ServiceName) : OrchState :=
  { st with verifyCalled := fun m => if m = n then true else st.verifyCalled m }

/-- `ServiceOrchestrator.start_service_with_state_machine`: sets STARTING,
calls `service.start(wait=False)`; on success sets VERIFYING and calls
`service.verify()`; READY on verified success, FAILED on a false return or an
exception anywhere in the try block.  Returns the success flag and the new
state map. -/
def start_service_with_state_machine (env : OrchEnv) (st : OrchState) (n : ServiceName) :
    Bool × OrchState :=
  let st1 := mark_start_called (update_service_state st n ServiceState.starting) n
  match (env.behavior n).start with
  | CallResult.exc => (false, update_service_state st1 n ServiceState.failed)
  | CallResult.ok false => (false, update_service_state st1 n ServiceState.failed)
  | CallResult.ok true =>
    let st2 := mark_verify_called (update_service_state st1 n ServiceState.verifying) n
    match (env.behavior n).verify with
    | CallResult.exc => (false, update_service_state st2 n ServiceState.failed)
    | CallResult.ok false => (false, update_service_state st2 n ServiceState.failed)
    | CallResult.ok true => (true, update_service_state st2 n ServiceState.ready)

/-- Derived: the success flag `start_service_with_state_machine` returns,
as a function of the adapter's behaviour. -/
def svcSuccess (b : ServiceBehavior) : Bool :=
  match b.start, b.verify with
  | CallResult.ok true, CallResult.ok true => true
  | _, _ => false

/-- Derived: the state a service ends in after its state-machine pass. -/
def machineFinalState (b : ServiceBehavior) : ServiceState :=
  if svcSuccess b then ServiceState.ready else ServiceState.failed

/-- Derived: the sequence of `update_service_state` calls one state-machine
pass makes for its service. -/
def machineTrace (b : ServiceBehavior) : List ServiceState :=
  match b.start with
  | CallResult.ok true =>
    match b.verify with
    | CallResult.ok true =>
      [ServiceState.starting, ServiceState.verifying, ServiceState.ready]
    | _ => [ServiceState.starting, ServiceState.verifying, ServiceState.failed]
  | _ => [ServiceState.starting, ServiceState.failed]

/-- Derived: whether the state-machine pass reaches the `service.verify()`
call (it does exactly when `service.start` returned True). -/
def machineVerifyCalled (b : ServiceBehavior) : Bool :=
  match b.start with
  | CallResult.ok true => true
  | _ => false

/-- One startup loop of `start_all_services`: runs the state machine for each
listed service in order, collecting the failed services and the aggregate
flag (`critical_services_ok` for the datastore loop). -/
def run_service_list (env : OrchEnv) :
    List ServiceName → OrchState → OrchState × List ServiceName × Bool
  | [], st => (st, [], true)
  | n :: rest, st =>
    let p := start_service_with_state_machine env st n
    let r := run_service_list env rest p.2
    (r.1, (if p.1 then r.2.1 else n :: r.2.1), (p.1 && r.2.2))

/-- `startup_order = ['redis', 'mysql', 'mongodb']` — datastores first. -/
def datastore_order : List ServiceName :=
  [ServiceName.redis, ServiceName.mysql, ServiceName.mongodb]

/-- `app_services = ['laravel', 'queue', 'nginx']` extended with the
monitoring stack when `include_monitoring` is set. -/
def app_service_order (include_monitoring : Bool) : List ServiceName :=
  [ServiceName.laravel, ServiceName.queue, ServiceName.nginx] ++
    (if include_monitoring then
      [ServiceName.elasticsearch, ServiceName.logstash, ServiceName.kibana,
        ServiceName.prometheus]
    else [])

/-- Iteration order of `self.services.items()`. -/
def all_service_names (include_monitoring : Bool) : List ServiceName :=
  [ServiceName.redis, ServiceName.mysql, ServiceName.mongodb,
    ServiceName.laravel, ServiceName.queue, ServiceName.nginx] ++
    (if include_monitoring then
      [ServiceName.elasticsearch, ServiceName.logstash, ServiceName.kibana,
        ServiceName.prometheus]
    else [])

/-- `ServiceOrchestrator._verify_all_services`: skips services whose recorded
state is FAILED, re-verifies the rest with `max_attempts=10`, and — as in the
source — returns True on both branches (the failed-verifications branch
deliberately does not return False, "útil para desenvolvimento"). -/
def verify_all_services (env : OrchEnv) (st : OrchState) (include_monitoring : Bool) : Bool :=
  let failed_verifications := (all_service_names include_monitoring).filter
    (fun n => decide (st.states n ≠ ServiceState.failed) && ! env.finalVerify n)
  if ! failed_verifications.isEmpty then true else true

/-- Result of one `start_all_services` run: the returned bool, the final
state map, and the accumulated `failed_services` list. -/
structure OrchRun where
  result : Bool
  st : OrchState
  failed_services : List ServiceName

/-- The two startup loops of `start_all_services`: the datastore loop, then
— only when `critical_services_ok` — the application loop (skipped with the
"pulando serviços dependentes" warning otherwise).  Yields the final state
and the accumulated `failed_services` list. -/
def startup_phase (env : OrchEnv) (include_monitoring : Bool) :
    OrchState × List ServiceName :=
  let d := run_service_list env datastore_order initOrchState
  let critical_services_ok := d.2.2
  if critical_services_ok then
    let r := run_service_list env (app_service_order include_monitoring) d.1
    (r.1, d.2.1 ++ r.2.1)
  else (d.1, d.2.1)

/-- `ServiceOrchestrator.start_all_services`: prerequisites (unless skipped),
network creation, compose-file update (warning only), the two startup loops,
then the final `_verify_all_services` sweep whose value is returned. -/
def start_all_services (env : OrchEnv) (skip_prerequisites include_monitoring : Bool) :
    OrchRun :=
  if !skip_prerequisites && !env.prereqOk then
    { result := false, st := initOrchState, failed_services := [] }
  else if !env.networksOk then
    { result := false, st := initOrchState, failed_services := [] }
  else
    { result := verify_all_services env (startup_phase env include_monitoring).1
        include_monitoring,
      st := (startup_phase env include_monitoring).1,
      failed_services := (startup_phase env include_monitoring).2 }

/-- The `start` action of `main`: `sys.exit(1)` when `start_all_services`
returned False, normal exit (0) otherwise. -/
def main_exit_code (env : OrchEnv) (skip_prerequisites include_monitoring : Bool) : Nat :=
  if (start_all_services env skip_prerequisites include_monitoring).result then 0 else 1

/-- Derived: the pre-flight part of `start_all_services` succeeded
(prerequisites passed or skipped, and network creation succeeded). -/
def preflight_ok (env : OrchEnv) (skip_prerequisites : Bool) : Bool :=
  (skip_prerequisites || env.prereqOk) && env.networksOk

/-- Derived: the `critical_services_ok` flag after the datastore loop. -/
def critical_ok (env : OrchEnv) : Bool :=
  datastore_order.all (fun n => svcSuccess (env.behavior n))

/-- Derived: whether the startup loops run the state machine for `n`. -/
def attempted_in_run (env : OrchEnv) (skip_prerequisites include_monitoring : Bool)
    (n : ServiceName) : Bool :=
  preflight_ok env skip_prerequisites &&
    (decide (n ∈ datastore_order) ||
      (critical_ok env && decide (n ∈ app_service_order include_monitoring)))

/-- A concrete run environment in which redis's `start` call returns False
and every other external outcome succeeds. -/
def envRedisStartFails : OrchEnv where
  prereqOk := true
  networksOk := true
  composeFilesOk := true
  behavior := fun n =>
    match n with
    | ServiceName.redis => { start := CallResult.ok false, verify := CallResult.ok true }
    | _ => { start := CallResult.ok true, verify := CallResult.ok true }
  finalVerify := fun _ => true

/-! ## Prerequisite checking (src/infra/docker/scripts/prerequisites.py)

`check_all` iterates a fixed battery of checks; each check either returns a
result dict whose `status` field is "pass" / "warning" / "fail", or raises.
The outcomes of one run are modelled as a list of `CheckOutcome`s.
-/

/-- Outcome of one prerequisite check: its `status` field, or an exception
raised while running it (caught by `check_all`'s per-check handler). -/
inductive CheckOutcome
  | pass
  | warning
  | fail
  | exc
deriving DecidableEq

/-- The loop body of `PrerequisiteChecker.check_all`: a "fail" status or an
exception clears `all_passed`; "pass" and "warning" leave it unchanged. -/
def check_step (all_passed : Bool) (r : CheckOutcome) : Bool :=
  match r with
  | CheckOutcome.pass => all_passed
  | CheckOutcome.warning => all_passed
  | CheckOutcome.fail => false
  | CheckOutcome.exc => false

/-- `PrerequisiteChecker.check_all`: folds the loop body over the check
outcomes, starting from `all_passed = True`. -/
def check_all (results : List CheckOutcome) : Bool :=
  results.foldl check_step true

/-! ## Env-file management (src/infra/docker/scripts/env_manager.py)

A `.env` file is a list of lines; the external python-dotenv parser
(`dotenv_values`) is modelled over structured lines: blank lines, comment
lines, and `KEY=VALUE` pairs.  `dotenv_values` returns a dict — an
insertion-ordered association list with unique keys, last assignment wins.
-/

/-- One line of a `.env` file, as the dotenv parser classifies it. -/
inductive EnvLine
  | blank
  | comment (text : String)
  | pair (key value : String)
deriving DecidableEq

/-- Python-dict assignment `d[k] = v`: update in place when the key exists,
append otherwise. -/
def dict_assign (acc : List (String × String)) (k v : String) : List (String × String) :=
  if acc.any (fun kv => kv.1 = k) then
    acc.map (fun kv => if kv.1 = k then (k, v) else kv)
  else acc ++ [(k, v)]

/-- The external `dotenv_values`: reads the pair lines into a dict. -/
def dotenv_values (ls : List EnvLine) : List (String × String) :=
  ls.foldl
    (fun acc l =>
      match l with
      | EnvLine.pair k v => dict_assign acc k v
      | _ => acc)
    []

/-- Python-dict membership `k in d`. -/
def hasKey (m : List (String × String)) (k : String) : Bool :=
  m.any (fun kv => kv.1 = k)

/-- Whether a file line binds the key `k` (derived, used to relate the
dotenv dict to the file's lines). -/
def lineHasKey (k : String) (l : EnvLine) : Bool :=
  match l with
  | EnvLine.pair key _ => key = k
  | _ => false

/-- `LaravelEnvManager._ensure_all_env_vars` on file contents: computes the
template keys missing from the `.env` file and, when there are any, appends
a blank line, a marker comment, and one `KEY=VALUE` line per missing key;
otherwise returns early leaving the file untouched. -/
def ensure_all_env_vars (envLines tmplLines : List EnvLine) : List EnvLine :=
  let example_vars := dotenv_values tmplLines
  let current_vars := dotenv_values envLines
  let missing_vars := example_vars.filter (fun kv => ! hasKey current_vars kv.1)
  if missing_vars.isEmpty then envLines
  else
    envLines ++
      [EnvLine.blank, EnvLine.comment "Variaveis adicionadas automaticamente do .env.example"] ++
      missing_vars.map (fun kv => EnvLine.pair kv.1 kv.2)

/-- The two files `LaravelEnvManager` works on; `none` means the file does
not exist on disk. -/
structure EnvFS where
  env_file : Option (List EnvLine)
  example_file : Option (List EnvLine)
deriving DecidableEq

/-- `LaravelEnvManager.validate_env_file`: copies the template when the
`.env` is missing; returns False when both files are missing; reconciles
missing keys and returns True when the `.env` exists.  The `Except` layer
carries any raised exception — the source raises none. -/
def validate_env_file (fs : EnvFS) : Except String (Bool × EnvFS) :=
  match fs.env_file with
  | none =>
    match fs.example_file with
    | some tmpl => Except.ok (true, { fs with env_file := some tmpl })
    | none => Except.ok (false, fs)
  | some envLines =>
    match fs.example_file with
    | some tmpl =>
      Except.ok (true, { fs with env_file := some (ensure_all_env_vars envLines tmpl) })
    | none => Except.ok (true, fs)

/-- Whether a modelled Python call ended by raising an exception. -/
def raisesException (r : Except String (Bool × EnvFS)) : Bool :=
  match r with
  | Except.error _ => true
  | Except.ok _ => false

/-! ## Retry helper (src/infra/docker/scripts/error_handler.py)

`retry_on_failure(func, max_attempts, delay)` calls `func()` up to
`max_attempts` times, sleeping `delay` between consecutive attempts.  The
successive outcomes of `func()` are modelled as a stream indexed by attempt
number; the result pairs the returned value (`none` models falling off the
end of the function, Python's implicit `None`) with the number of
`time.sleep(delay)` calls made.
-/

/-- The `for attempt in range(max_attempts)` loop of `retry_on_failure`:
`attempt` is the current index, the second argument the attempts left
(current one included).  Sleeps only when `attempt < max_attempts - 1`,
i.e. when further attempts remain. -/
def retry_loop {α : Type} (f : Nat → Except String α) : Nat → Nat → Option α × Nat
  | _, 0 => (none, 0)
  | attempt, remaining + 1 =>
    match f attempt with
    | Except.ok a => (some a, 0)
    | Except.error _ =>
      if remaining > 0 then
        let r := retry_loop f (attempt + 1) remaining
        (r.1, r.2 + 1)
      else (none, 0)

/-- `retry_on_failure`: runs the loop from attempt 0; when every attempt
raised, control falls off the end of the function and Python returns None. -/
def retry_on_failure {α : Type} (f : Nat → Except String α) (max_attempts : Nat) :
    Option α × Nat :=
  retry_loop f 0 max_attempts

/-! ## Readiness poll loops (src/infra/docker/services)

`RedisService.verify` polls `docker inspect` + `redis-cli ping` once per
iteration of `for attempt in range(1, max_attempts + 1)`, sleeping 1s after
every failed probe; `BaseDockerService._verify_http_endpoint` polls an HTTP
endpoint once per iteration of `for attempt in range(max_attempts)`,
sleeping 2s after every failed probe.  A probe outcome stream abstracts the
container/HTTP state; the statistics record the returned bool, the number of
probes performed and the number of sleeps.  `max_attempts` is an `Int`
because the claims quantify over non-positive values; `range` yields
`max 0 max_attempts` iterations.
-/

/-- Result, probe count and sleep count of one verify call. -/
structure VerifyStats where
  result : Bool
  probes : Nat
  sleeps : Nat
deriving DecidableEq

/-- The poll loop of `RedisService.verify`. -/
def redis_verify_loop (probe : Nat → Bool) : Nat → Nat → VerifyStats
  | _, 0 => { result := false, probes := 0, sleeps := 0 }
  | attempt, remaining + 1 =>
    if probe attempt then { result := true, probes := 1, sleeps := 0 }
    else
      let r := redis_verify_loop probe (attempt + 1) remaining
      { result := r.result, probes := r.probes + 1, sleeps := r.sleeps + 1 }

/-- `RedisService.verify`: `range(1, max_attempts + 1)`. -/
def RedisService.verify (probe : Nat → Bool) (max_attempts : Int) : VerifyStats :=
  redis_verify_loop probe 1 max_attempts.toNat

/-- The poll loop of `BaseDockerService._verify_http_endpoint`. -/
def http_verify_loop (requestOk : Nat → Bool) : Nat → Nat → VerifyStats
  | _, 0 => { result := false, probes := 0, sleeps := 0 }
  | attempt, remaining + 1 =>
    if requestOk attempt then { result := true, probes := 1, sleeps := 0 }
    else
      let r := http_verify_loop requestOk (attempt + 1) remaining
      { result := r.result, probes := r.probes + 1, sleeps := r.sleeps + 1 }

/-- `BaseDockerService._verify_http_endpoint`: `range(max_attempts)`. -/
def verify_http_endpoint (requestOk : Nat → Bool) (max_attempts : Int) : VerifyStats :=
  http_verify_loop requestOk 0 max_attempts.toNat

/-! ## Laravel entrypoint (src/infra/docker/entrypoint.py)

`LaravelEntrypoint.docker_exec` runs `subprocess.run(..., check=True)`: the
external command's `CompletedProcess` is the abstract outcome; `check=True`
converts any non-zero return code into a raised `CalledProcessError`.
-/

/-- The fields of `subprocess.CompletedProcess` the entrypoint reads. -/
structure CompletedProcess where
  returncode : Int
  stdout : String
deriving DecidableEq

/-- `subprocess.run(..., check=True)`: raises `CalledProcessError` (carrying
the process result) on a non-zero return code, else returns the result. -/
def subprocess_run_checked (r : CompletedProcess) : Except CompletedProcess CompletedProcess :=
  if r.returncode ≠ 0 then Except.error r else Except.ok r

/-- `LaravelEntrypoint.docker_exec`: builds the `docker exec` argv and calls
`subprocess.run` with `check=True`; the command's outcome is the argument. -/
def docker_exec (execResult : CompletedProcess) : Except CompletedProcess CompletedProcess :=
  subprocess_run_checked execResult

/-- The `.env` existence check of `LaravelEntrypoint.run` (step 1.5):
`docker_exec(["test", "-f", env_file])` followed by the
`result.returncode != 0` fallback that creates a basic `.env`.  Returns
whether the fallback branch ran; a raised `CalledProcessError` propagates. -/
def run_env_fallback (testResult : CompletedProcess) : Except CompletedProcess Bool :=
  match docker_exec testResult with
  | Except.error e => Except.error e
  | Except.ok result => if result.returncode ≠ 0 then Except.ok true else Except.ok false

/-- The `.env` existence check of `LaravelEntrypoint.generate_app_key`:
same shape — `docker_exec(["test", "-f", env_file])` then a
`result.returncode != 0` branch that raises `RuntimeError`.  Returns whether
that branch ran. -/
def generate_app_key_env_check (testResult : CompletedProcess) : Except CompletedProcess Bool :=
  match docker_exec testResult with
  | Except.error e => Except.error e
  | Except.ok result => if result.returncode ≠ 0 then Except.ok true else Except.ok false

/-- External outcomes consumed by one `LaravelEntrypoint.run` call:
whether the base path exists (`ensure_environment`'s `test -d`), the outcome
of the `test -f .env` exec, and whether each best-effort step raises. -/
structure EntrypointEnv where
  basePathExists : Bool
  envFileTest : CompletedProcess
  composerFails : Bool
  npmFails : Bool
  appKeyFails : Bool
  clearFails : Bool
  migrationsFails : Bool
  cacheFails : Bool
  permsFails : Bool

/-- Outcome of `LaravelEntrypoint.run`: a normal return carrying the
warnings logged for swallowed step errors, or a propagated exception. -/
inductive RunOutcome
  | normal (warnings : List String) : RunOutcome
  | raised (message : String) : RunOutcome
deriving DecidableEq

/-- Whether `run` returned normally. -/
def RunOutcome.isNormal : RunOutcome → Bool
  | RunOutcome.normal _ => true
  | RunOutcome.raised _ => false

/-- The warnings `run` logs: one per best-effort step (2–7) that raised and
was swallowed by its individual try/except. -/
def entrypoint_step_warnings (e : EntrypointEnv) : List String :=
  (if e.composerFails then ["Composer falhou"] else []) ++
  (if e.npmFails then ["NPM falhou"] else []) ++
  (if e.appKeyFails then ["APP_KEY falhou"] else []) ++
  (if e.clearFails then ["Limpeza de caches falhou"] else []) ++
  (if e.migrationsFails then ["Migrations falharam"] else []) ++
  (if e.cacheFails then ["Otimizacoes falharam"] else []) ++
  (if e.permsFails then ["Ajuste de permissoes falhou"] else [])

/-- `LaravelEntrypoint.run`: `ensure_environment` and the `.env` existence
check run inside the outer try whose handler logs and re-raises; steps 2–7
are each wrapped in their own try/except that logs a warning and
continues. -/
def LaravelEntrypoint.run (e : EntrypointEnv) : RunOutcome :=
  if !e.basePathExists then RunOutcome.raised "RuntimeError: ensure_environment"
  else
    match run_env_fallback e.envFileTest with
    | Except.error _ => RunOutcome.raised "CalledProcessError: test -f .env"
    | Except.ok _ => RunOutcome.normal (entrypoint_step_warnings e)

/-- A concrete entrypoint environment in which the base-path check fails
and everything else succeeds. -/
def entrypointBadBaseEnv : EntrypointEnv where
  basePathExists := false
  envFileTest := { returncode := 0, stdout := "" }
  composerFails := false
  npmFails := false
  appKeyFails := false
  clearFails := false
  migrationsFails := false
  cacheFails := false
  permsFails := false

/-- A concrete entrypoint environment in which every best-effort step
fails but the environment checks succeed. -/
def entrypointAllStepsFailEnv : EntrypointEnv where
  basePathExists := true
  envFileTest := { returncode := 0, stdout := "" }
  composerFails := true
  npmFails := true
  appKeyFails := true
  clearFails := true
  migrationsFails := true
  cacheFails := true
  permsFails := true

/-! ## Lemmas about one state-machine pass -/

/-- The success flag of one state-machine pass is determined by the
adapter's start/verify outcomes. -/
theorem machine_success (env : OrchEnv) (st : OrchState) (n : ServiceName) :
    (start_service_with_state_machine env st n).1 = svcSuccess (env.behavior n) := by
  unfold start_service_with_state_machine svcSuccess
  cases hs : (env.behavior n).start with
  | exc => simp [hs]
  | ok v =>
    cases v
    · simp [hs]
    · cases hv : (env.behavior n).verify with
      | exc => simp [hs, hv]
      | ok w => cases w <;> simp [hs, hv]

/-- One state-machine pass leaves every other service's recorded state
untouched and drives its own to the derived final state. -/
theorem machine_states (env : OrchEnv) (st : OrchState) (n m : ServiceName) :
    (start_service_with_state_machine env st n).2.states m =
      if m = n then machineFinalState (env.behavior n) else st.states m := by
  unfold start_service_with_state_machine machineFinalState svcSuccess
  cases hs : (env.behavior n).start with
  | exc =>
    by_cases hm : m = n <;>
      simp [hs, hm, update_service_state, mark_start_called, mark_verify_called]
  | ok v =>
    cases v
    · by_cases hm : m = n <;>
        simp [hs, hm, update_service_state, mark_start_called, mark_verify_called]
    · cases hv : (env.behavior n).verify with
      | exc =>
        by_cases hm : m = n <;>
          simp [hs, hv, hm, update_service_state, mark_start_called, mark_verify_called]
      | ok w =>
        cases w <;> by_cases hm : m = n <;>
          simp [hs, hv, hm, update_service_state, mark_start_called, mark_verify_called]

/-- One state-machine pass appends exactly its derived trace to its own
service's update log and leaves every other log untouched. -/
theorem machine_updates (env : OrchEnv) (st : OrchState) (n m : ServiceName) :
    (start_service_with_state_machine env st n).2.updates m =
      if m = n then st.updates m ++ machineTrace (env.behavior n) else st.updates m := by
  unfold start_service_with_state_machine machineTrace
  cases hs : (env.behavior n).start with
  | exc =>
    by_cases hm : m = n <;>
      simp [hs, hm, update_service_state, mark_start_called, mark_verify_called]
  | ok v =>
    cases v
    · by_cases hm : m = n <;>
        simp [hs, hm, update_service_state, mark_start_called, mark_verify_called]
    · cases hv : (env.behavior n).verify with
      | exc =>
        by_cases hm : m = n <;>
          simp [hs, hv, hm, update_service_state, mark_start_called, mark_verify_called]
      | ok w =>
        cases w <;> by_cases hm : m = n <;>
          simp [hs, hv, hm, update_service_state, mark_start_called, mark_verify_called]

/-- One state-machine pass marks its own service's `start` as called. -/
theorem machine_startCalled (env : OrchEnv) (st : OrchState) (n m : ServiceName) :
    (start_service_with_state_machine env st n).2.startCalled m =
      (st.startCalled m || decide (m = n)) := by
  unfold start_service_with_state_machine
  cases hs : (env.behavior n).start with
  | exc =>
    by_cases hm : m = n <;>
      simp [hs, hm, update_service_state, mark_start_called, mark_verify_called]
  | ok v =>
    cases v
    · by_cases hm : m = n <;>
        simp [hs, hm, update_service_state, mark_start_called, mark_verify_called]
    · cases hv : (env.behavior n).verify with
      | exc =>
        by_cases hm : m = n <;>
          simp [hs, hv, hm, update_service_state, mark_start_called, mark_verify_called]
      | ok w =>
        cases w <;> by_cases hm : m = n <;>
          simp [hs, hv, hm, update_service_state, mark_start_called, mark_verify_called]

/-- One state-machine pass marks its own service's `verify` as called
exactly when the start call returned True. -/
theorem machine_verifyCalled (env : OrchEnv) (st : OrchState) (n m : ServiceName) :
    (start_service_with_state_machine env st n).2.verifyCalled m =
      (st.verifyCalled m || (decide (m = n) && machineVerifyCalled (env.behavior n))) := by
  unfold start_service_with_state_machine machineVerifyCalled
  cases hs : (env.behavior n).start with
  | exc =>
    by_cases hm : m = n <;>
      simp [hs, hm, update_service_state, mark_start_called, mark_verify_called]
  | ok v =>
    cases v
    · by_cases hm : m = n <;>
        simp [hs, hm, update_service_state, mark_start_called, mark_verify_called]
    · cases hv : (env.behavior n).verify with
      | exc =>
        by_cases hm : m = n <;>
          simp [hs, hv, hm, update_service_state, mark_start_called, mark_verify_called]
      | ok w =>
        cases w <;> by_cases hm : m = n <;>
          simp [hs, hv, hm, update_service_state, mark_start_called, mark_verify_called]

/-! ## Lemmas about the startup loops -/

/-- The aggregate flag of one startup loop is the conjunction of the
per-service success flags. -/
theorem run_list_critical (env : OrchEnv) :
    ∀ (names : List ServiceName) (st : OrchState),
      (run_service_list env names st).2.2 =
        names.all (fun n => svcSuccess (env.behavior n)) := by
  intro names
  induction names with
  | nil => intro st; rfl
  | cons n rest ih =>
    intro st
    simp only [run_service_list, List.all_cons]
    rw [machine_success, ih]

/-- After one startup loop, a service's recorded state is its derived final
state when it was in the list, and is untouched otherwise. -/
theorem run_list_states (env : OrchEnv) :
    ∀ (names : List ServiceName) (st : OrchState) (m : ServiceName),
      (run_service_list env names st).1.states m =
        if m ∈ names then machineFinalState (env.behavior m) else st.states m := by
  intro names
  induction names with
  | nil => intro st m; simp [run_service_list]
  | cons n rest ih =>
    intro st m
    simp only [run_service_list]
    rw [ih, machine_states]
    by_cases h1 : m ∈ rest <;> by_cases h2 : m = n <;>
      simp [h1, h2, List.mem_cons]

/-- After one startup loop over distinct names, a service's update log has
grown by exactly its derived trace when it was in the list, and is untouched
otherwise. -/
theorem run_list_updates (env : OrchEnv) :
    ∀ (names : List ServiceName) (st : OrchState) (m : ServiceName), names.Nodup →
      (run_service_list env names st).1.updates m =
        st.updates m ++ (if m ∈ names then machineTrace (env.behavior m) else []) := by
  intro names
  induction names with
  | nil => intro st m _; simp [run_service_list]
  | cons n rest ih =>
    intro st m hnd
    have hnr : n ∉ rest := (List.nodup_cons.mp hnd).1
    have hrest : rest.Nodup := (List.nodup_cons.mp hnd).2
    simp only [run_service_list]
    rw [ih _ _ hrest, machine_updates]
    by_cases h2 : m = n
    · subst h2
      simp [hnr]
    · simp [h2, List.mem_cons]

/-- After one startup loop, a service's start was called exactly when it was
already called before or the service is in the list. -/
theorem run_list_startCalled (env : OrchEnv) :
    ∀ (names : List ServiceName) (st : OrchState) (m : ServiceName),
      (run_service_list env names st).1.startCalled m =
        (st.startCalled m || decide (m ∈ names)) := by
  intro names
  induction names with
  | nil => intro st m; simp [run_service_list]
  | cons n rest ih =>
    intro st m
    simp only [run_service_list]
    rw [ih, machine_startCalled]
    by_cases h1 : m ∈ rest <;> by_cases h2 : m = n <;>
      simp [h1, h2, List.mem_cons]

/-- After one startup loop, a service's verify was called exactly when it
was already called before, or the service is in the list and its start call
returned True. -/
theorem run_list_verifyCalled (env : OrchEnv) :
    ∀ (names : List ServiceName) (st : OrchState) (m : ServiceName),
      (run_service_list env names st).1.verifyCalled m =
        (st.verifyCalled m ||
          (decide (m ∈ names) && machineVerifyCalled (env.behavior m))) := by
  intro names
  induction names with
  | nil => intro st m; simp [run_service_list]
  | cons n rest ih =>
    intro st m
    simp only [run_service_list]
    rw [ih, machine_verifyCalled]
    by_cases h1 : m ∈ rest <;> by_cases h2 : m = n
    · subst h2; simp [h1]
    · simp [h1, h2, List.mem_cons]
    · subst h2
      simp [h1]
    · simp [h1, h2, List.mem_cons]

/-! ## Characterisation of a full `start_all_services` run -/

/-- The startup order of the datastore loop has no duplicates. -/
theorem datastore_nodup : datastore_order.Nodup := by decide

/-- The startup order of the application loop has no duplicates. -/
theorem app_nodup (mon : Bool) : (app_service_order mon).Nodup := by
  cases mon <;> decide

/-- No service is both a datastore and an application-tier service. -/
theorem ds_app_disjoint (mon : Bool) (n : ServiceName) :
    n ∈ datastore_order → n ∉ app_service_order mon := by
  cases mon <;> cases n <;> decide

/-- `_verify_all_services` returns True on both of its branches. -/
theorem verify_all_services_true (env : OrchEnv) (st : OrchState) (mon : Bool) :
    verify_all_services env st mon = true := by
  simp [verify_all_services]

/-- The `critical_services_ok` flag of the datastore loop, folded. -/
theorem startup_critical (env : OrchEnv) :
    (run_service_list env datastore_order initOrchState).2.2 = critical_ok env := by
  rw [run_list_critical]; rfl

/-- After the two startup loops, a service's recorded state is its derived
final state when a loop reached it, and PENDING otherwise. -/
theorem startup_phase_states (env : OrchEnv) (mon : Bool) (n : ServiceName) :
    (startup_phase env mon).1.states n =
      if decide (n ∈ datastore_order) ||
          (critical_ok env && decide (n ∈ app_service_order mon)) then
        machineFinalState (env.behavior n)
      else ServiceState.pending := by
  unfold startup_phase
  simp only [startup_critical]
  by_cases hc : critical_ok env = true
  · simp only [hc, if_true]
    rw [run_list_states, run_list_states]
    by_cases h1 : n ∈ datastore_order <;> by_cases h2 : n ∈ app_service_order mon <;>
      simp [h1, h2, initOrchState]
  · have hc0 : critical_ok env = false := by
      cases h : critical_ok env
      · rfl
      · exact absurd h hc
    simp only [hc0, Bool.false_eq_true, if_false]
    rw [run_list_states]
    by_cases h1 : n ∈ datastore_order <;> simp [h1, initOrchState]

/-- After the two startup loops, a service's update log is its derived trace
when a loop reached it, and empty otherwise. -/
theorem startup_phase_updates (env : OrchEnv) (mon : Bool) (n : ServiceName) :
    (startup_phase env mon).1.updates n =
      if decide (n ∈ datastore_order) ||
          (critical_ok env && decide (n ∈ app_service_order mon)) then
        machineTrace (env.behavior n)
      else [] := by
  unfold startup_phase
  simp only [startup_critical]
  by_cases hc : critical_ok env = true
  · simp only [hc, if_true]
    rw [run_list_updates env _ _ _ (app_nodup mon),
      run_list_updates env _ _ _ datastore_nodup]
    by_cases h1 : n ∈ datastore_order <;> by_cases h2 : n ∈ app_service_order mon
    · exact absurd h2 (ds_app_disjoint mon n h1)
    · simp [h1, h2, initOrchState]
    · simp [h1, h2, initOrchState]
    · simp [h1, h2, initOrchState]
  · have hc0 : critical_ok env = false := by
      cases h : critical_ok env
      · rfl
      · exact absurd h hc
    simp only [hc0, Bool.false_eq_true, if_false]
    rw [run_list_updates env _ _ _ datastore_nodup]
    by_cases h1 : n ∈ datastore_order <;> simp [h1, initOrchState]

/-- After the two startup loops, a service's start was called exactly when a
loop reached it. -/
theorem startup_phase_startCalled (env : OrchEnv) (mon : Bool) (n : ServiceName) :
    (startup_phase env mon).1.startCalled n =
      (decide (n ∈ datastore_order) ||
        (critical_ok env && decide (n ∈ app_service_order mon))) := by
  unfold startup_phase
  simp only [startup_critical]
  by_cases hc : critical_ok env = true
  · simp only [hc, if_true]
    rw [run_list_startCalled, run_list_startCalled]
    by_cases h1 : n ∈ datastore_order <;> by_cases h2 : n ∈ app_service_order mon <;>
      simp [h1, h2, initOrchState]
  · have hc0 : critical_ok env = false := by
      cases h : critical_ok env
      · rfl
      · exact absurd h hc
    simp only [hc0, Bool.false_eq_true, if_false]
    rw [run_list_startCalled]
    by_cases h1 : n ∈ datastore_order <;> simp [h1, initOrchState]

/-- After the two startup loops, a service's verify was called exactly when
a loop reached it and its start call returned True. -/
theorem startup_phase_verifyCalled (env : OrchEnv) (mon : Bool) (n : ServiceName) :
    (startup_phase env mon).1.verifyCalled n =
      ((decide (n ∈ datastore_order) ||
          (critical_ok env && decide (n ∈ app_service_order mon))) &&
        machineVerifyCalled (env.behavior n)) := by
  unfold startup_phase
  simp only [startup_critical]
  by_cases hc : critical_ok env = true
  · simp only [hc, if_true]
    rw [run_list_verifyCalled, run_list_verifyCalled]
    by_cases h1 : n ∈ datastore_order <;> by_cases h2 : n ∈ app_service_order mon <;>
      cases hm : machineVerifyCalled (env.behavior n) <;>
        simp [h1, h2, hm, initOrchState]
  · have hc0 : critical_ok env = false := by
      cases h : critical_ok env
      · rfl
      · exact absurd h hc
    simp only [hc0, Bool.false_eq_true, if_false]
    rw [run_list_verifyCalled]
    by_cases h1 : n ∈ datastore_order <;> simp [h1, initOrchState]

/-- Full-run characterisation of a service's recorded state. -/
theorem start_all_states (env : OrchEnv) (skip mon : Bool) (n : ServiceName) :
    (start_all_services env skip mon).st.states n =
      if attempted_in_run env skip mon n then machineFinalState (env.behavior n)
      else ServiceState.pending := by
  unfold start_all_services attempted_in_run preflight_ok
  cases skip <;> cases h1 : env.prereqOk <;> cases h2 : env.networksOk <;>
    simp [h1, h2, initOrchState, startup_phase_states]

/-- Full-run characterisation of a service's update log. -/
theorem start_all_updates (env : OrchEnv) (skip mon : Bool) (n : ServiceName) :
    (start_all_services env skip mon).st.updates n =
      if attempted_in_run env skip mon n then machineTrace (env.behavior n)
      else [] := by
  unfold start_all_services attempted_in_run preflight_ok
  cases skip <;> cases h1 : env.prereqOk <;> cases h2 : env.networksOk <;>
    simp [h1, h2, initOrchState, startup_phase_updates]

/-- Full-run characterisation of which services had `start` invoked by the
startup loops. -/
theorem start_all_startCalled (env : OrchEnv) (skip mon : Bool) (n : ServiceName) :
    (start_all_services env skip mon).st.startCalled n = attempted_in_run env skip mon n := by
  unfold start_all_services attempted_in_run preflight_ok
  cases skip <;> cases h1 : env.prereqOk <;> cases h2 : env.networksOk <;>
    simp [h1, h2, initOrchState, startup_phase_startCalled]

/-- Full-run characterisation of which services had `verify` invoked by the
startup loops. -/
theorem start_all_verifyCalled (env : OrchEnv) (skip mon : Bool) (n : ServiceName) :
    (start_all_services env skip mon).st.verifyCalled n =
      (attempted_in_run env skip mon n && machineVerifyCalled (env.behavior n)) := by
  unfold start_all_services attempted_in_run preflight_ok
  cases skip <;> cases h1 : env.prereqOk <;> cases h2 : env.networksOk <;>
    simp [h1, h2, initOrchState, startup_phase_verifyCalled]

/-! ## Claims C1, C2, C7 -/

/-- Claim C1, corrected.  The return value of `start_all_services` reflects
only the pre-flight stage: it is True iff the prerequisite check passed (or
was skipped) and network creation succeeded.  Service start/verify failures
never make it False — `_verify_all_services` returns True on both branches —
so the `start` action exits 0 whenever the pre-flight stage passed,
regardless of failed services. -/
theorem claim_C1 (env : OrchEnv) (skip mon : Bool) :
    (start_all_services env skip mon).result = ((skip || env.prereqOk) && env.networksOk) ∧
    main_exit_code env skip mon =
      (if (skip || env.prereqOk) && env.networksOk then 0 else 1) := by
  have hres : (start_all_services env skip mon).result =
      ((skip || env.prereqOk) && env.networksOk) := by
    unfold start_all_services
    cases skip <;> cases h1 : env.prereqOk <;> cases h2 : env.networksOk <;>
      simp [h1, h2, verify_all_services_true]
  refine ⟨hres, ?_⟩
  unfold main_exit_code
  rw [hres]

/-- Claim C1, counterexample to the claim as stated: in a run where redis
fails to start (it is recorded in `failed_services`), `start_all_services`
still returns True and the process exits 0 — not False / exit 1 as the
claim requires. -/
theorem claim_C1_counterexample :
    (start_all_services envRedisStartFails false false).failed_services =
      [ServiceName.redis] ∧
    (start_all_services envRedisStartFails false false).result = true ∧
    main_exit_code envRedisStartFails false false = 0 := by
  refine ⟨by decide, by decide, by decide⟩

/-- Claim C2: in any run in which some datastore service ends in state
FAILED, no application-tier service (monitoring included when enabled) has
its start or verify method called by the startup loops, and its recorded
state stays PENDING. -/
theorem claim_C2 (env : OrchEnv) (skip mon : Bool) (d a : ServiceName)
    (hd : d ∈ datastore_order)
    (hfailed : (start_all_services env skip mon).st.states d = ServiceState.failed)
    (ha : a ∈ app_service_order mon) :
    (start_all_services env skip mon).st.startCalled a = false ∧
    (start_all_services env skip mon).st.verifyCalled a = false ∧
    (start_all_services env skip mon).st.states a = ServiceState.pending := by
  rw [start_all_states] at hfailed
  have hsvc : svcSuccess (env.behavior d) = false := by
    by_cases hatt : attempted_in_run env skip mon d = true
    · rw [hatt] at hfailed
      simp only [if_true] at hfailed
      unfold machineFinalState at hfailed
      cases h : svcSuccess (env.behavior d)
      · rfl
      · rw [h] at hfailed
        simp at hfailed
    · have hatt0 : attempted_in_run env skip mon d = false := by
        cases h : attempted_in_run env skip mon d
        · rfl
        · exact absurd h hatt
      rw [hatt0] at hfailed
      simp at hfailed
  have hcrit : critical_ok env = false := by
    cases hall : critical_ok env
    · rfl
    · unfold critical_ok at hall
      have := List.all_eq_true.mp hall d hd
      rw [hsvc] at this
      exact absurd this (by decide)
  have hna : a ∉ datastore_order := fun hmem => ds_app_disjoint mon a hmem ha
  have hatta : attempted_in_run env skip mon a = false := by
    unfold attempted_in_run
    simp [hna, hcrit]
  refine ⟨?_, ?_, ?_⟩
  · rw [start_all_startCalled]
    exact hatta
  · rw [start_all_verifyCalled, hatta]
    simp
  · rw [start_all_states, hatta]
    simp

/-- Claim C2 witness: with redis forced to fail and monitoring off, laravel
is never started or verified by the startup loops and stays PENDING. -/
theorem claim_C2_witness :
    (start_all_services envRedisStartFails true false).st.startCalled
      ServiceName.laravel = false ∧
    (start_all_services envRedisStartFails true false).st.verifyCalled
      ServiceName.laravel = false ∧
    (start_all_services envRedisStartFails true false).st.states
      ServiceName.laravel = ServiceState.pending :=
  claim_C2 envRedisStartFails true false ServiceName.redis ServiceName.laravel
    (by decide) (by decide) (by decide)

/-- Claim C7: within one orchestrator run, a service's update log shows
READY only after both its start call and its verify call returned success
(and READY is then the last update); and once FAILED is recorded it is the
last update and is recorded exactly once — FAILED is terminal for the
run. -/
theorem claim_C7 (env : OrchEnv) (skip mon : Bool) (n : ServiceName) :
    (ServiceState.ready ∈ (start_all_services env skip mon).st.updates n →
      (env.behavior n).start = CallResult.ok true ∧
      (env.behavior n).verify = CallResult.ok true ∧
      ((start_all_services env skip mon).st.updates n).getLast? =
        some ServiceState.ready) ∧
    (ServiceState.failed ∈ (start_all_services env skip mon).st.updates n →
      ((start_all_services env skip mon).st.updates n).getLast? =
        some ServiceState.failed ∧
      ((start_all_services env skip mon).st.updates n).count ServiceState.failed = 1) := by
  rw [start_all_updates]
  by_cases hatt : attempted_in_run env skip mon n = true
  · rw [hatt]
    simp only [if_true]
    unfold machineTrace
    cases hs : (env.behavior n).start with
    | exc =>
      exact ⟨fun h => absurd (show ServiceState.ready ∈
          [ServiceState.starting, ServiceState.failed] from h) (by decide),
        fun _ => ⟨rfl, rfl⟩⟩
    | ok v =>
      cases v
      · exact ⟨fun h => absurd (show ServiceState.ready ∈
            [ServiceState.starting, ServiceState.failed] from h) (by decide),
          fun _ => ⟨rfl, rfl⟩⟩
      · cases hv : (env.behavior n).verify with
        | exc =>
          exact ⟨fun h => absurd (show ServiceState.ready ∈
              [ServiceState.starting, ServiceState.verifying, ServiceState.failed] from h)
              (by decide),
            fun _ => ⟨rfl, rfl⟩⟩
        | ok w =>
          cases w
          · exact ⟨fun h => absurd (show ServiceState.ready ∈
                [ServiceState.starting, ServiceState.verifying, ServiceState.failed] from h)
                (by decide),
              fun _ => ⟨rfl, rfl⟩⟩
          · exact ⟨fun _ => ⟨rfl, rfl, rfl⟩,
              fun h => absurd (show ServiceState.failed ∈
                [ServiceState.starting, ServiceState.verifying, ServiceState.ready] from h)
                (by decide)⟩
  · have hatt0 : attempted_in_run env skip mon n = false := by
      cases h : attempted_in_run env skip mon n
      · rfl
      · exact absurd h hatt
    rw [hatt0]
    simp

/-- Claim C7 witness: in the redis-fails run, mysql's READY entry certifies
both of its calls succeeded, and redis's FAILED entry is last and unique. -/
theorem claim_C7_witness :
    ((envRedisStartFails.behavior ServiceName.mysql).start = CallResult.ok true ∧
      (envRedisStartFails.behavior ServiceName.mysql).verify = CallResult.ok true ∧
      ((start_all_services envRedisStartFails true false).st.updates
        ServiceName.mysql).getLast? = some ServiceState.ready) ∧
    (((start_all_services envRedisStartFails true false).st.updates
        ServiceName.redis).getLast? = some ServiceState.failed ∧
      ((start_all_services envRedisStartFails true false).st.updates
        ServiceName.redis).count ServiceState.failed = 1) :=
  ⟨(claim_C7 envRedisStartFails true false ServiceName.mysql).1 (by decide),
    (claim_C7 envRedisStartFails true false ServiceName.redis).2 (by decide)⟩

/-! ## Claim C3 -/

/-- The `all_passed` fold of `check_all`, restarted from any accumulator. -/
theorem check_foldl (l : List CheckOutcome) :
    ∀ b : Bool, l.foldl check_step b = (b && l.all (fun r => check_step true r)) := by
  induction l with
  | nil => intro b; simp
  | cons r t ih =>
    intro b
    simp only [List.foldl_cons, List.all_cons]
    rw [ih]
    cases r <;> simp [check_step]

/-- Claim C3: `check_all` returns True exactly when every check reported
"pass" or "warning"; equivalently, any "fail" status or raised exception
makes it False, while warnings never do. -/
theorem claim_C3 (results : List CheckOutcome) :
    check_all results = true ↔
      ∀ r ∈ results, r = CheckOutcome.pass ∨ r = CheckOutcome.warning := by
  unfold check_all
  rw [check_foldl, Bool.true_and, List.all_eq_true]
  constructor
  · intro h r hr
    have h2 := h r hr
    cases r
    · exact Or.inl rfl
    · exact Or.inr rfl
    · exact absurd h2 (by decide)
    · exact absurd h2 (by decide)
  · intro h r hr
    rcases h r hr with h1 | h1 <;> subst h1 <;> rfl

/-! ## Claims C5 and C8 -/

/-- Claim C5, counterexample to the claim as stated: with both the `.env`
file and the `.env.example` template missing, `validate_env_file` does not
raise any exception. -/
theorem claim_C5_counterexample :
    raisesException (validate_env_file (EnvFS.mk none none)) = false := rfl

/-- Claim C5, corrected: with both files missing, `validate_env_file`
reports the failure by returning False as an ordinary value (no exception
is raised, and the filesystem is untouched). -/
theorem claim_C5 :
    validate_env_file (EnvFS.mk none none) = Except.ok (false, EnvFS.mk none none) := rfl

/-- Assigning a key into a dotenv dict adds exactly that key. -/
theorem dict_assign_hasKey (acc : List (String × String)) (k' v k : String) :
    hasKey (dict_assign acc k' v) k = (hasKey acc k || decide (k' = k)) := by
  unfold dict_assign hasKey
  have hf : ∀ kv : String × String,
      ((if kv.1 = k' then (k', v) else kv).1) = kv.1 := by
    intro kv
    by_cases h : kv.1 = k' <;> simp [h]
  by_cases hp : acc.any (fun kv => kv.1 = k') = true
  · rw [if_pos hp]
    simp only [List.any_map, Function.comp_def]
    simp only [hf]
    by_cases hk : k' = k
    · subst hk
      simp [hp]
    · simp [hk]
  · rw [if_neg hp]
    simp [List.any_append]

/-- A key is in the dict `dotenv_values` builds iff some pair line of the
file binds it. -/
theorem dotenv_foldl_hasKey (k : String) :
    ∀ (ls : List EnvLine) (acc : List (String × String)),
      hasKey (ls.foldl (fun acc l =>
        match l with
        | EnvLine.pair k v => dict_assign acc k v
        | _ => acc) acc) k = (hasKey acc k || ls.any (lineHasKey k)) := by
  intro ls
  induction ls with
  | nil => intro acc; simp
  | cons l t ih =>
    intro acc
    simp only [List.foldl_cons, List.any_cons]
    rw [ih]
    cases l with
    | blank => simp [lineHasKey]
    | comment s => simp [lineHasKey]
    | pair k' v => simp [dict_assign_hasKey, lineHasKey, Bool.or_assoc]

/-- Key membership in a parsed file, in terms of its lines. -/
theorem dotenv_hasKey (ls : List EnvLine) (k : String) :
    hasKey (dotenv_values ls) k = ls.any (lineHasKey k) := by
  unfold dotenv_values
  rw [dotenv_foldl_hasKey]
  simp [hasKey]

/-- After one reconcile pass, every template key is present in the file. -/
theorem ensure_covers (envLines tmplLines : List EnvLine) (kv : String × String)
    (h : kv ∈ dotenv_values tmplLines) :
    hasKey (dotenv_values (ensure_all_env_vars envLines tmplLines)) kv.1 = true := by
  simp only [ensure_all_env_vars]
  by_cases hm : ((dotenv_values tmplLines).filter
      (fun kv => ! hasKey (dotenv_values envLines) kv.1)).isEmpty = true
  · simp only [hm, if_true]
    have h0 : (dotenv_values tmplLines).filter
        (fun kv => ! hasKey (dotenv_values envLines) kv.1) = [] :=
      List.isEmpty_iff.mp hm
    have h1 := List.filter_eq_nil_iff.mp h0 kv h
    simpa using h1
  · have hm0 : ((dotenv_values tmplLines).filter
        (fun kv => ! hasKey (dotenv_values envLines) kv.1)).isEmpty = false := by
      cases hx : ((dotenv_values tmplLines).filter
          (fun kv => ! hasKey (dotenv_values envLines) kv.1)).isEmpty
      · rfl
      · exact absurd hx hm
    simp only [hm0, Bool.false_eq_true, if_false]
    rw [dotenv_hasKey]
    by_cases hc : hasKey (dotenv_values envLines) kv.1 = true
    · have h1 : envLines.any (lineHasKey kv.1) = true := by
        rw [← dotenv_hasKey]; exact hc
      simp [List.any_append, h1]
    · have hc0 : hasKey (dotenv_values envLines) kv.1 = false := by
        cases hx : hasKey (dotenv_values envLines) kv.1
        · rfl
        · exact absurd hx hc
      have hmem : kv ∈ (dotenv_values tmplLines).filter
          (fun kv => ! hasKey (dotenv_values envLines) kv.1) :=
        List.mem_filter.mpr ⟨h, by simp [hc0]⟩
      have h2 : (((dotenv_values tmplLines).filter
            (fun kv => ! hasKey (dotenv_values envLines) kv.1)).map
            (fun kv => EnvLine.pair kv.1 kv.2)).any (lineHasKey kv.1) = true := by
        rw [List.any_eq_true]
        exact ⟨EnvLine.pair kv.1 kv.2, List.mem_map.mpr ⟨kv, hmem, rfl⟩,
          by simp [lineHasKey]⟩
      simp [List.any_append, h2]

/-- A reconcile pass that finds nothing missing leaves the file unchanged. -/
theorem ensure_eq_self_of_no_missing (xs tmplLines : List EnvLine)
    (h : (dotenv_values tmplLines).filter
      (fun kv => ! hasKey (dotenv_values xs) kv.1) = []) :
    ensure_all_env_vars xs tmplLines = xs := by
  simp only [ensure_all_env_vars]
  simp [h]

/-- Claim C8: the reconcile operation is idempotent — a second application
over the same template finds no missing keys and appends nothing, leaving
the file content of the first application exactly as it was. -/
theorem claim_C8 (envLines tmplLines : List EnvLine) :
    ensure_all_env_vars (ensure_all_env_vars envLines tmplLines) tmplLines =
      ensure_all_env_vars envLines tmplLines := by
  apply ensure_eq_self_of_no_missing
  rw [List.filter_eq_nil_iff]
  intro kv hkv
  simp [ensure_covers envLines tmplLines kv hkv]

/-! ## Claim C6 -/

/-- One-step unfolding of the retry loop when attempts remain. -/
theorem retry_loop_succ {α : Type} (f : Nat → Except String α) (attempt remaining : Nat) :
    retry_loop f attempt (remaining + 1) =
      match f attempt with
      | Except.ok a => (some a, 0)
      | Except.error _ =>
        if remaining > 0 then
          ((retry_loop f (attempt + 1) remaining).1,
            (retry_loop f (attempt + 1) remaining).2 + 1)
        else (none, 0) := rfl

/-- When every attempt from the first index on raises, the retry loop
returns None and sleeps once per attempt except the last. -/
theorem retry_loop_all_fail {α : Type} (f : Nat → Except String α) :
    ∀ (n : Nat), 1 ≤ n → ∀ (first : Nat),
      (∀ j, j < n → ∃ e, f (first + j) = Except.error e) →
      retry_loop f first n = (none, n - 1) := by
  intro n
  induction n with
  | zero => intro h; exact absurd h (by decide)
  | succ m ih =>
    intro _ first hfail
    obtain ⟨e, he⟩ := hfail 0 (Nat.succ_pos m)
    rw [Nat.add_zero] at he
    cases m with
    | zero =>
      rw [retry_loop_succ, he]
      simp
    | succ kk =>
      have hshift : ∀ j, j < kk + 1 → ∃ e2, f (first + 1 + j) = Except.error e2 := by
        intro j hj
        obtain ⟨e2, he2⟩ := hfail (j + 1) (by omega)
        exact ⟨e2, by rw [show first + 1 + j = first + (j + 1) from by omega]; exact he2⟩
      have hrec := ih (by omega) (first + 1) hshift
      rw [retry_loop_succ, he]
      simp [hrec]

/-- Claim C6: when `func` raises on every one of its `max_attempts`
invocations (`max_attempts ≥ 1`), `retry_on_failure` returns None instead of
re-raising the last exception, having slept the fixed delay exactly
`max_attempts - 1` times — once between each pair of consecutive
attempts. -/
theorem claim_C6 {α : Type} (f : Nat → Except String α) (max_attempts : Nat)
    (h1 : 1 ≤ max_attempts)
    (hfail : ∀ i, i < max_attempts → ∃ e, f i = Except.error e) :
    retry_on_failure f max_attempts = (none, max_attempts - 1) := by
  unfold retry_on_failure
  refine retry_loop_all_fail f max_attempts h1 0 ?_
  intro j hj
  obtain ⟨e, he⟩ := hfail j hj
  exact ⟨e, by rw [Nat.zero_add]; exact he⟩

/-- Claim C6 witness: a function raising on all three attempts yields None
with two sleeps. -/
theorem claim_C6_witness :
    retry_on_failure (fun _ => (Except.error "boom" : Except String Nat)) 3 =
      (none, 2) :=
  claim_C6 (fun _ => Except.error "boom") 3 (by decide) (fun i _ => ⟨"boom", rfl⟩)

/-! ## Claim C9 -/

/-- Claim C9: for every `max_attempts ≤ 0`, both `RedisService.verify` and
`_verify_http_endpoint` return False immediately — zero readiness probes and
zero sleeps. -/
theorem claim_C9 (probe requestOk : Nat → Bool) (max_attempts : Int)
    (hm : max_attempts ≤ 0) :
    RedisService.verify probe max_attempts =
      { result := false, probes := 0, sleeps := 0 } ∧
    verify_http_endpoint requestOk max_attempts =
      { result := false, probes := 0, sleeps := 0 } := by
  have h0 : max_attempts.toNat = 0 := Int.toNat_of_nonpos hm
  constructor
  · unfold RedisService.verify
    rw [h0]
    rfl
  · unfold verify_http_endpoint
    rw [h0]
    rfl

/-- Claim C9 witness: at `max_attempts = -3` both loops return immediately
even with an always-succeeding probe. -/
theorem claim_C9_witness :
    RedisService.verify (fun _ => true) (-3) =
      { result := false, probes := 0, sleeps := 0 } ∧
    verify_http_endpoint (fun _ => true) (-3) =
      { result := false, probes := 0, sleeps := 0 } :=
  claim_C9 (fun _ => true) (fun _ => true) (-3) (by decide)

/-! ## Claims C10 and C4 -/

/-- Claim C10: because `docker_exec` calls `subprocess.run` with
`check=True`, a result it returns without raising always has return code 0;
consequently the `returncode != 0` fallback branches in `run` and
`generate_app_key` can never run, and a missing `.env` surfaces as a raised
`CalledProcessError` instead. -/
theorem claim_C10 :
    (∀ r res : CompletedProcess, docker_exec r = Except.ok res → res.returncode = 0) ∧
    (∀ r : CompletedProcess,
      run_env_fallback r = Except.error r ∨ run_env_fallback r = Except.ok false) ∧
    (∀ r : CompletedProcess,
      generate_app_key_env_check r = Except.error r ∨
        generate_app_key_env_check r = Except.ok false) ∧
    (∀ r : CompletedProcess, r.returncode ≠ 0 → run_env_fallback r = Except.error r) := by
  refine ⟨?_, ?_, ?_, ?_⟩
  · intro r res h
    unfold docker_exec subprocess_run_checked at h
    by_cases hr : r.returncode = 0
    · rw [if_neg (by simp [hr])] at h
      injection h with h2
      rw [← h2]
      exact hr
    · rw [if_pos hr] at h
      exact absurd h (by simp)
  · intro r
    unfold run_env_fallback docker_exec subprocess_run_checked
    by_cases hr : r.returncode = 0
    · right
      rw [if_neg (by simp [hr])]
      simp [hr]
    · left
      rw [if_pos hr]
  · intro r
    unfold generate_app_key_env_check docker_exec subprocess_run_checked
    by_cases hr : r.returncode = 0
    · right
      rw [if_neg (by simp [hr])]
      simp [hr]
    · left
      rw [if_pos hr]
  · intro r hr
    unfold run_env_fallback docker_exec subprocess_run_checked
    rw [if_pos hr]

/-- Claim C10 witness: a zero-returncode exec passes through with return
code 0, and a non-zero `test -f .env` raises instead of using the
fallback branch. -/
theorem claim_C10_witness :
    ({ returncode := 0, stdout := "ok" } : CompletedProcess).returncode = 0 ∧
    run_env_fallback { returncode := 1, stdout := "" } =
      Except.error { returncode := 1, stdout := "" } :=
  ⟨claim_C10.1 { returncode := 0, stdout := "ok" } { returncode := 0, stdout := "ok" } rfl,
    claim_C10.2.2.2 { returncode := 1, stdout := "" } (by decide)⟩

/-- Claim C4, corrected: when the environment checks pass, `run` returns
normally whatever combination of the best-effort steps (dependency install,
key generation, migrations, cache steps, permissions) raises — each is
caught and logged.  (The environment check itself is the exception: see the
counterexample.) -/
theorem claim_C4 (e : EntrypointEnv) (hbase : e.basePathExists = true)
    (henv : e.envFileTest.returncode = 0) :
    LaravelEntrypoint.run e = RunOutcome.normal (entrypoint_step_warnings e) := by
  have hok : run_env_fallback e.envFileTest = Except.ok false := by
    unfold run_env_fallback docker_exec subprocess_run_checked
    rw [if_neg (by simp [henv])]
    simp [henv]
  unfold LaravelEntrypoint.run
  simp [hbase, hok]

/-- Claim C4, counterexample to the claim as stated: an error in the
environment-check step is not swallowed — `run` propagates the exception
instead of returning normally. -/
theorem claim_C4_counterexample :
    LaravelEntrypoint.run entrypointBadBaseEnv =
      RunOutcome.raised "RuntimeError: ensure_environment" ∧
    (LaravelEntrypoint.run entrypointBadBaseEnv).isNormal = false :=
  ⟨rfl, rfl⟩

/-- Claim C4 witness: with every best-effort step failing, `run` still
returns normally, logging one warning per failed step. -/
theorem claim_C4_witness :
    LaravelEntrypoint.run entrypointAllStepsFailEnv =
      RunOutcome.normal (entrypoint_step_warnings entrypointAllStepsFailEnv) :=
  claim_C4 entrypointAllStepsFailEnv rfl rfl
